import Mathlib

/-!
Verification of `scripts/convert_pdf_slides.py`, a thin command-line driver
that rasterizes a PDF into per-page JPEG slides by invoking the external
`pdftoppm` tool.

The script is modelled as a pure function over an abstract environment
(`Env`) that records everything the operating system decides: whether a
tool is resolvable on the search path (`shutil.which`), how a path resolves
to an absolute path (`Path.resolve`), whether a resolved path exists on
disk (`Path.exists`), and which exit code the external process returns
(`subprocess.run`).  The driver's behaviour is captured as a trace of
observable steps plus the final process exit status.  Python's
`sys.exit(msg)` with a string argument prints the message and terminates
the process with status 1; the model makes that explicit.
-/

namespace ConvertPdfSlides

/-- Abstract execution environment: the facts about the operating system the
script consults.  `which t = true` means tool `t` is resolvable on the
search path; `resolve` is `pathlib.Path.resolve` on the textual path;
`fileExists p = true` means the (resolved) path `p` exists on disk;
`procExit cmd` is the exit code the external process started with command
line `cmd` returns. -/
structure Env where
  which : String → Bool
  resolve : String → String
  fileExists : String → Bool
  procExit : List String → Int

/-- One observable step the driver performs, in order. -/
inductive Step where
  | whichCheck (tool : String) (found : Bool)
  | existsCheck (path : String) (found : Bool)
  | mkdir (dir : String)
  | spawn (cmd : List String) (code : Int)
  | echo (msg : String)
  deriving DecidableEq, Repr

/-- The parsed configuration: argparse's namespace with fields `pdf`,
`output_dir`, `prefix` (here `pfx`, since `prefix` is reserved in Lean) and
`dpi`. -/
structure Config where
  pdf : String
  output_dir : String
  pfx : String
  dpi : Int
  deriving DecidableEq, Repr

/-- The command-line arguments actually supplied: the required positional
`pdf` plus the three optional flags (`none` when the flag is absent). -/
structure Args where
  pdf : String
  output_dir : Option String
  pfx : Option String
  dpi : Option Int
  deriving DecidableEq, Repr

/-- `parse_args`: the positional `pdf` argument and the three optional
flags with their argparse defaults `imgs/slides`, `portfolio-page`
and `150`. -/
def parse_args (a : Args) : Config :=
  { pdf := a.pdf
    output_dir := a.output_dir.getD "imgs/slides"
    pfx := a.pfx.getD "portfolio-page"
    dpi := a.dpi.getD 150 }

/-- `output_dir / prefix` of `pathlib`, rendered with the POSIX
separator as `str()` does. -/
def joinPath (dir file : String) : String := dir ++ "/" ++ file

/-- The fixed-shape `pdftoppm` command line built in `convert_pdf`:
`["pdftoppm", "-jpeg", "-rx", str(dpi), "-ry", str(dpi), str(pdf_path),
str(prefix_path)]`. -/
def command (resolvedPdf prefix_path : String) (dpi : Int) : List String :=
  ["pdftoppm", "-jpeg", "-rx", toString dpi, "-ry", toString dpi,
   resolvedPdf, prefix_path]

/-- The `sys.exit` message of `ensure_tool`. -/
def toolErrMsg (tool : String) : String :=
  "Error: required tool " ++ "'" ++ tool ++ "'" ++
    " was not found in PATH. Install poppler-utils."

/-- The `sys.exit` message of the missing-input branch of `convert_pdf`. -/
def pdfErrMsg (resolved : String) : String :=
  "Error: PDF file not found: " ++ resolved

/-- The `sys.exit` message of the failed-subprocess branch of
`convert_pdf`. -/
def procErrMsg (code : Int) : String :=
  "pdftoppm failed with exit code " ++ toString code

/-- The success message printed by `main`. -/
def okMsg (resolvedDir pfx : String) : String :=
  "Generated JPEG slides in " ++ resolvedDir ++ " using prefix " ++
    "'" ++ pfx ++ "'" ++ "."

/-- `ensure_tool`: checks `shutil.which(tool)`; on failure `sys.exit` with a
message (printed, exit status 1).  Returns the steps performed and `some
code` when the process terminated, `none` when control continues. -/
def ensure_tool (env : Env) (tool : String) : List Step × Option Nat :=
  if env.which tool then
    ([.whichCheck tool true], none)
  else
    ([.whichCheck tool false, .echo (toolErrMsg tool)], some 1)

/-- `convert_pdf`: resolves the PDF path, checks existence (exiting with
status 1 and a message if absent), creates the output directory
(`mkdir(parents=True, exist_ok=True)`), builds the command and runs it
synchronously; a non-zero exit code from the tool triggers `sys.exit` with
a message naming that code (exit status 1). -/
def convert_pdf (env : Env) (pdf_path output_dir pfx : String) (dpi : Int) :
    List Step × Option Nat :=
  let resolved := env.resolve pdf_path
  if env.fileExists resolved then
    let prefix_path := joinPath output_dir pfx
    let cmd := command resolved prefix_path dpi
    let code := env.procExit cmd
    if code = 0 then
      ([.existsCheck resolved true, .mkdir output_dir, .spawn cmd code], none)
    else
      ([.existsCheck resolved true, .mkdir output_dir, .spawn cmd code,
        .echo (procErrMsg code)], some 1)
  else
    ([.existsCheck resolved false, .echo (pdfErrMsg resolved)], some 1)

/-- `main`: parse the arguments, check the tool, convert, and on success
print the confirmation naming `args.output_dir.resolve()` and the prefix.
Returns the full trace of steps and the process exit status. -/
def main (env : Env) (a : Args) : List Step × Nat :=
  let cfg := parse_args a
  match ensure_tool env "pdftoppm" with
  | (t1, some c) => (t1, c)
  | (t1, _) =>
    match convert_pdf env cfg.pdf cfg.output_dir cfg.pfx cfg.dpi with
    | (t2, some c) => (t1 ++ t2, c)
    | (t2, _) =>
      (t1 ++ t2 ++
        [.echo (okMsg (env.resolve cfg.output_dir) cfg.pfx)], 0)

/-- The command line `main` builds for a given environment and argument
vector. -/
def commandOf (env : Env) (a : Args) : List String :=
  command (env.resolve (parse_args a).pdf)
    (joinPath (parse_args a).output_dir (parse_args a).pfx) (parse_args a).dpi

/-- `true` for the steps that start the external process. -/
def isSpawn : Step → Bool
  | .spawn _ _ => true
  | _ => false

/-- `true` for the steps that modify the filesystem: directory creation and
the external process (which writes the JPEG files). -/
def isFsWrite : Step → Bool
  | .mkdir _ => true
  | .spawn _ _ => true
  | _ => false

/-- Substring test on strings, as Python's `in` on `str`. -/
def containsStr (hay needle : String) : Bool :=
  decide (needle.data <:+: hay.data)

theorem containsStr_iff {hay needle : String} :
    containsStr hay needle = true ↔ needle.data <:+: hay.data := by
  simp [containsStr]

theorem data_append (a b : String) : (a ++ b).data = a.data ++ b.data := rfl

theorem containsStr_append_right (a b : String) :
    containsStr (a ++ b) b = true := by
  rw [containsStr_iff, data_append]
  exact ⟨a.data, [], by simp⟩

theorem containsStr_append_left (a b : String)
    (n : String) (h : containsStr a n = true) :
    containsStr (a ++ b) n = true := by
  rw [containsStr_iff, data_append]
  rcases containsStr_iff.mp h with ⟨s, t, hst⟩
  exact ⟨s, t ++ b.data, by simp [← hst]⟩

theorem containsStr_middle (a n b : String) :
    containsStr (a ++ n ++ b) n = true :=
  containsStr_append_left _ b n (containsStr_append_right a n)

theorem main_eq_noTool (env : Env) (a : Args)
    (h : env.which "pdftoppm" = false) :
    main env a =
      ([.whichCheck "pdftoppm" false, .echo (toolErrMsg "pdftoppm")], 1) := by
  unfold main ensure_tool
  simp [h]

theorem main_eq_noPdf (env : Env) (a : Args)
    (htool : env.which "pdftoppm" = true)
    (hpdf : env.fileExists (env.resolve (parse_args a).pdf) = false) :
    main env a =
      ([.whichCheck "pdftoppm" true,
        .existsCheck (env.resolve (parse_args a).pdf) false,
        .echo (pdfErrMsg (env.resolve (parse_args a).pdf))], 1) := by
  unfold main ensure_tool convert_pdf
  simp [htool, hpdf]

theorem main_eq_procFail (env : Env) (a : Args)
    (htool : env.which "pdftoppm" = true)
    (hpdf : env.fileExists (env.resolve (parse_args a).pdf) = true)
    (hcode : env.procExit (commandOf env a) ≠ 0) :
    main env a =
      ([.whichCheck "pdftoppm" true,
        .existsCheck (env.resolve (parse_args a).pdf) true,
        .mkdir (parse_args a).output_dir,
        .spawn (commandOf env a) (env.procExit (commandOf env a)),
        .echo (procErrMsg (env.procExit (commandOf env a)))], 1) := by
  unfold main ensure_tool convert_pdf
  simp only [commandOf] at hcode
  simp [htool, hpdf, hcode, commandOf]

theorem main_eq_ok (env : Env) (a : Args)
    (htool : env.which "pdftoppm" = true)
    (hpdf : env.fileExists (env.resolve (parse_args a).pdf) = true)
    (hcode : env.procExit (commandOf env a) = 0) :
    main env a =
      ([.whichCheck "pdftoppm" true,
        .existsCheck (env.resolve (parse_args a).pdf) true,
        .mkdir (parse_args a).output_dir,
        .spawn (commandOf env a) (env.procExit (commandOf env a)),
        .echo (okMsg (env.resolve (parse_args a).output_dir)
          (parse_args a).pfx)], 0) := by
  unfold main ensure_tool convert_pdf
  simp only [commandOf] at hcode
  simp [htool, hpdf, hcode, commandOf]

/-- Environment in which everything succeeds: the tool is on the path, every
path exists, and the external process exits 0. -/
def envOk : Env :=
  { which := fun _ => true
    resolve := fun s => "/abs/" ++ s
    fileExists := fun _ => true
    procExit := fun _ => 0 }

/-- Environment in which no tool is resolvable on the search path. -/
def envNoTool : Env :=
  { which := fun _ => false
    resolve := fun s => "/abs/" ++ s
    fileExists := fun _ => true
    procExit := fun _ => 0 }

/-- Environment in which the tool is present but no file exists. -/
def envNoPdf : Env :=
  { which := fun _ => true
    resolve := fun s => "/abs/" ++ s
    fileExists := fun _ => false
    procExit := fun _ => 0 }

/-- Environment in which the external process fails with exit code 2. -/
def envProcFail : Env :=
  { which := fun _ => true
    resolve := fun s => "/abs/" ++ s
    fileExists := fun _ => true
    procExit := fun _ => 2 }

/-- Argument vector with only the positional PDF argument. -/
def argsDefault : Args := { pdf := "deck.pdf", output_dir := none, pfx := none, dpi := none }

/-- C1: whenever the tool check and the input-existence check pass, the
driver starts exactly one external process, and its command line has the
fixed shape `pdftoppm -jpeg -rx <dpi> -ry <dpi> <resolved pdf>
<output_dir/prefix>` with both resolution arguments equal to the configured
DPI and the output argument the output directory joined with the prefix. -/
theorem C1_fixed_command_shape (env : Env) (a : Args)
    (htool : env.which "pdftoppm" = true)
    (hpdf : env.fileExists (env.resolve (parse_args a).pdf) = true) :
    (main env a).1.filter isSpawn =
      [Step.spawn (commandOf env a) (env.procExit (commandOf env a))] ∧
    commandOf env a =
      ["pdftoppm", "-jpeg", "-rx", toString (parse_args a).dpi, "-ry",
       toString (parse_args a).dpi, env.resolve (parse_args a).pdf,
       joinPath (parse_args a).output_dir (parse_args a).pfx] := by
  refine ⟨?_, rfl⟩
  by_cases hcode : env.procExit (commandOf env a) = 0
  · rw [main_eq_ok env a htool hpdf hcode]
    simp [isSpawn, List.filter]
  · rw [main_eq_procFail env a htool hpdf hcode]
    simp [isSpawn, List.filter]

/-- C1 witness: the hypotheses hold and the conclusion follows in the
all-success environment with the default argument vector. -/
theorem C1_fixed_command_shape_witness :
    envOk.which "pdftoppm" = true ∧
    envOk.fileExists (envOk.resolve (parse_args argsDefault).pdf) = true ∧
    ((main envOk argsDefault).1.filter isSpawn =
      [Step.spawn (commandOf envOk argsDefault)
        (envOk.procExit (commandOf envOk argsDefault))] ∧
    commandOf envOk argsDefault =
      ["pdftoppm", "-jpeg", "-rx", toString (parse_args argsDefault).dpi, "-ry",
       toString (parse_args argsDefault).dpi,
       envOk.resolve (parse_args argsDefault).pdf,
       joinPath (parse_args argsDefault).output_dir (parse_args argsDefault).pfx]) :=
  ⟨rfl, rfl, C1_fixed_command_shape envOk argsDefault rfl rfl⟩

/-- C2: when the tool is on the path but the PDF argument does not resolve
to an existing file, the driver exits non-zero, some emitted message
contains both the literal phrase `PDF file not found` and the resolved
path, and no external process is ever started. -/
theorem C2_missing_pdf (env : Env) (a : Args)
    (htool : env.which "pdftoppm" = true)
    (hpdf : env.fileExists (env.resolve (parse_args a).pdf) = false) :
    (main env a).2 ≠ 0 ∧
    (∃ m, Step.echo m ∈ (main env a).1 ∧
      containsStr m "PDF file not found" = true ∧
      containsStr m (env.resolve (parse_args a).pdf) = true) ∧
    (main env a).1.filter isSpawn = [] := by
  rw [main_eq_noPdf env a htool hpdf]
  refine ⟨by simp, ⟨pdfErrMsg (env.resolve (parse_args a).pdf), by simp, ?_, ?_⟩,
    by simp [isSpawn, List.filter]⟩
  · exact containsStr_append_left "Error: PDF file not found: " _ _ (by decide)
  · exact containsStr_append_right "Error: PDF file not found: " _

/-- C2 witness: tool present, file absent, in a concrete environment. -/
theorem C2_missing_pdf_witness :
    envNoPdf.which "pdftoppm" = true ∧
    envNoPdf.fileExists (envNoPdf.resolve (parse_args argsDefault).pdf) = false ∧
    ((main envNoPdf argsDefault).2 ≠ 0 ∧
    (∃ m, Step.echo m ∈ (main envNoPdf argsDefault).1 ∧
      containsStr m "PDF file not found" = true ∧
      containsStr m (envNoPdf.resolve (parse_args argsDefault).pdf) = true) ∧
    (main envNoPdf argsDefault).1.filter isSpawn = []) :=
  ⟨rfl, rfl, C2_missing_pdf envNoPdf argsDefault rfl rfl⟩

/-- The argument vector of a default invocation: only the positional PDF
argument, no optional flags. -/
def argsOnly (pdfArg : String) : Args :=
  { pdf := pdfArg, output_dir := none, pfx := none, dpi := none }

/-- C3: with only the positional PDF argument, the parsed configuration has
DPI 150, output directory `imgs/slides` and prefix `portfolio-page`, and
the single external invocation (when reached) uses exactly those values. -/
theorem C3_default_configuration (env : Env) (pdfArg : String)
    (htool : env.which "pdftoppm" = true)
    (hpdf : env.fileExists (env.resolve pdfArg) = true) :
    parse_args (argsOnly pdfArg) =
      { pdf := pdfArg, output_dir := "imgs/slides", pfx := "portfolio-page",
        dpi := 150 } ∧
    (main env (argsOnly pdfArg)).1.filter isSpawn =
      [Step.spawn
        ["pdftoppm", "-jpeg", "-rx", "150", "-ry", "150", env.resolve pdfArg,
         "imgs/slides/portfolio-page"]
        (env.procExit
          ["pdftoppm", "-jpeg", "-rx", "150", "-ry", "150", env.resolve pdfArg,
           "imgs/slides/portfolio-page"])] := by
  refine ⟨rfl, ?_⟩
  have h2 : env.fileExists (env.resolve (parse_args (argsOnly pdfArg)).pdf) = true := hpdf
  by_cases hcode : env.procExit (commandOf env (argsOnly pdfArg)) = 0
  · rw [main_eq_ok env (argsOnly pdfArg) htool h2 hcode]
    rfl
  · rw [main_eq_procFail env (argsOnly pdfArg) htool h2 hcode]
    rfl

/-- C3 witness: concrete all-success environment. -/
theorem C3_default_configuration_witness :
    envOk.which "pdftoppm" = true ∧
    envOk.fileExists (envOk.resolve "deck.pdf") = true ∧
    (parse_args (argsOnly "deck.pdf") =
      { pdf := "deck.pdf", output_dir := "imgs/slides", pfx := "portfolio-page",
        dpi := 150 } ∧
    (main envOk (argsOnly "deck.pdf")).1.filter isSpawn =
      [Step.spawn
        ["pdftoppm", "-jpeg", "-rx", "150", "-ry", "150",
         envOk.resolve "deck.pdf", "imgs/slides/portfolio-page"]
        (envOk.procExit
          ["pdftoppm", "-jpeg", "-rx", "150", "-ry", "150",
           envOk.resolve "deck.pdf", "imgs/slides/portfolio-page"])]) :=
  ⟨rfl, rfl, C3_default_configuration envOk "deck.pdf" rfl rfl⟩

/-- C4: when the external process returns a non-zero exit code `n`, the
driver exits non-zero and some emitted message contains that exact code. -/
theorem C4_proc_failure_reports_code (env : Env) (a : Args) (n : Int)
    (htool : env.which "pdftoppm" = true)
    (hpdf : env.fileExists (env.resolve (parse_args a).pdf) = true)
    (hrun : env.procExit (commandOf env a) = n) (hn : n ≠ 0) :
    (main env a).2 ≠ 0 ∧
    ∃ m, Step.echo m ∈ (main env a).1 ∧ containsStr m (toString n) = true := by
  subst hrun
  rw [main_eq_procFail env a htool hpdf hn]
  exact ⟨by simp, procErrMsg (env.procExit (commandOf env a)), by simp,
    containsStr_append_right "pdftoppm failed with exit code " _⟩

/-- C4 witness: the tool exits with code 2 in a concrete environment. -/
theorem C4_proc_failure_reports_code_witness :
    envProcFail.which "pdftoppm" = true ∧
    envProcFail.fileExists (envProcFail.resolve (parse_args argsDefault).pdf) = true ∧
    envProcFail.procExit (commandOf envProcFail argsDefault) = 2 ∧ (2 : Int) ≠ 0 ∧
    ((main envProcFail argsDefault).2 ≠ 0 ∧
    ∃ m, Step.echo m ∈ (main envProcFail argsDefault).1 ∧
      containsStr m (toString (2 : Int)) = true) :=
  ⟨rfl, rfl, rfl, by decide,
    C4_proc_failure_reports_code envProcFail argsDefault 2 rfl rfl rfl (by decide)⟩

/-- C5: when `pdftoppm` is not resolvable on the search path the driver
exits non-zero, some emitted message contains `not found in PATH`, and the
trace contains no input-existence check, no directory creation and no
external invocation. -/
theorem C5_missing_tool (env : Env) (a : Args)
    (h : env.which "pdftoppm" = false) :
    (main env a).2 ≠ 0 ∧
    (∃ m, Step.echo m ∈ (main env a).1 ∧
      containsStr m "not found in PATH" = true) ∧
    (main env a).1.filter
      (fun s => isFsWrite s ||
        match s with | .existsCheck _ _ => true | _ => false) = [] := by
  rw [main_eq_noTool env a h]
  refine ⟨by simp, ⟨toolErrMsg "pdftoppm", by simp, by decide⟩,
    by simp [isFsWrite, List.filter]⟩

/-- C5 witness: concrete environment with no tool on the path. -/
theorem C5_missing_tool_witness :
    envNoTool.which "pdftoppm" = false ∧
    ((main envNoTool argsDefault).2 ≠ 0 ∧
    (∃ m, Step.echo m ∈ (main envNoTool argsDefault).1 ∧
      containsStr m "not found in PATH" = true) ∧
    (main envNoTool argsDefault).1.filter
      (fun s => isFsWrite s ||
        match s with | .existsCheck _ _ => true | _ => false) = []) :=
  ⟨rfl, C5_missing_tool envNoTool argsDefault rfl⟩

/-- C6: when the PDF resolves to an existing file, the tool is present and
the external process exits 0, the driver exits with status 0 and prints a
confirmation containing the resolved output directory and the prefix. -/
theorem C6_success_confirmation (env : Env) (a : Args)
    (htool : env.which "pdftoppm" = true)
    (hpdf : env.fileExists (env.resolve (parse_args a).pdf) = true)
    (hcode : env.procExit (commandOf env a) = 0) :
    (main env a).2 = 0 ∧
    ∃ m, Step.echo m ∈ (main env a).1 ∧
      containsStr m (env.resolve (parse_args a).output_dir) = true ∧
      containsStr m (parse_args a).pfx = true := by
  rw [main_eq_ok env a htool hpdf hcode]
  refine ⟨rfl, okMsg (env.resolve (parse_args a).output_dir) (parse_args a).pfx,
    by simp, ?_, ?_⟩
  · exact containsStr_append_left _ _ _
      (containsStr_append_left _ _ _
        (containsStr_append_left _ _ _
          (containsStr_append_left _ _ _
            (containsStr_append_left _ _ _
              (containsStr_append_right _ _)))))
  · exact containsStr_append_left _ _ _
      (containsStr_append_left _ _ _
        (containsStr_append_right _ _))

/-- C6 witness: concrete all-success environment. -/
theorem C6_success_confirmation_witness :
    envOk.which "pdftoppm" = true ∧
    envOk.fileExists (envOk.resolve (parse_args argsDefault).pdf) = true ∧
    envOk.procExit (commandOf envOk argsDefault) = 0 ∧
    ((main envOk argsDefault).2 = 0 ∧
    ∃ m, Step.echo m ∈ (main envOk argsDefault).1 ∧
      containsStr m (envOk.resolve (parse_args argsDefault).output_dir) = true ∧
      containsStr m (parse_args argsDefault).pfx = true) :=
  ⟨rfl, rfl, rfl, C6_success_confirmation envOk argsDefault rfl rfl rfl⟩

/-- C7: in every run that reaches the external invocation, the directory
creation step on the configured output directory occurs strictly before the
external process is started (in the model `mkdir(parents=True,
exist_ok=True)` always succeeds, so the output directory exists from that
step on, in particular after any successful run). -/
theorem C7_mkdir_precedes_spawn (env : Env) (a : Args)
    (htool : env.which "pdftoppm" = true)
    (hpdf : env.fileExists (env.resolve (parse_args a).pdf) = true) :
    ∃ pre mid post : List Step,
      (main env a).1 =
        pre ++ Step.mkdir (parse_args a).output_dir :: mid ++
          Step.spawn (commandOf env a) (env.procExit (commandOf env a)) ::
            post := by
  by_cases hcode : env.procExit (commandOf env a) = 0
  · rw [main_eq_ok env a htool hpdf hcode]
    exact ⟨[.whichCheck "pdftoppm" true,
      .existsCheck (env.resolve (parse_args a).pdf) true], [], _, rfl⟩
  · rw [main_eq_procFail env a htool hpdf hcode]
    exact ⟨[.whichCheck "pdftoppm" true,
      .existsCheck (env.resolve (parse_args a).pdf) true], [], _, rfl⟩

/-- C7 witness: concrete all-success environment. -/
theorem C7_mkdir_precedes_spawn_witness :
    envOk.which "pdftoppm" = true ∧
    envOk.fileExists (envOk.resolve (parse_args argsDefault).pdf) = true ∧
    (∃ pre mid post : List Step,
      (main envOk argsDefault).1 =
        pre ++ Step.mkdir (parse_args argsDefault).output_dir :: mid ++
          Step.spawn (commandOf envOk argsDefault)
            (envOk.procExit (commandOf envOk argsDefault)) :: post) :=
  ⟨rfl, rfl, C7_mkdir_precedes_spawn envOk argsDefault rfl rfl⟩

/-- C8: the control flow is one fixed linear sequence.  Every execution of
the driver produces exactly one of four traces, each a linear list of
steps: tool check then fatal exit; tool check, input check, fatal exit;
tool check, input check, directory creation, external call, fatal exit; or
tool check, input check, directory creation, external call, success
message.  In particular the tool check always precedes the input check, and
directory creation always precedes the invocation. -/
theorem C8_linear_control_flow (env : Env) (a : Args) :
    main env a =
      ([.whichCheck "pdftoppm" false, .echo (toolErrMsg "pdftoppm")], 1) ∨
    main env a =
      ([.whichCheck "pdftoppm" true,
        .existsCheck (env.resolve (parse_args a).pdf) false,
        .echo (pdfErrMsg (env.resolve (parse_args a).pdf))], 1) ∨
    main env a =
      ([.whichCheck "pdftoppm" true,
        .existsCheck (env.resolve (parse_args a).pdf) true,
        .mkdir (parse_args a).output_dir,
        .spawn (commandOf env a) (env.procExit (commandOf env a)),
        .echo (procErrMsg (env.procExit (commandOf env a)))], 1) ∨
    main env a =
      ([.whichCheck "pdftoppm" true,
        .existsCheck (env.resolve (parse_args a).pdf) true,
        .mkdir (parse_args a).output_dir,
        .spawn (commandOf env a) (env.procExit (commandOf env a)),
        .echo (okMsg (env.resolve (parse_args a).output_dir)
          (parse_args a).pfx)], 0) := by
  cases htool : env.which "pdftoppm" with
  | false => exact Or.inl (main_eq_noTool env a htool)
  | true =>
    cases hpdf : env.fileExists (env.resolve (parse_args a).pdf) with
    | false => exact Or.inr (Or.inl (main_eq_noPdf env a htool hpdf))
    | true =>
      by_cases hcode : env.procExit (commandOf env a) = 0
      · exact Or.inr (Or.inr (Or.inr (main_eq_ok env a htool hpdf hcode)))
      · exact Or.inr (Or.inr (Or.inl (main_eq_procFail env a htool hpdf hcode)))

/-- C9: when the driver stops because the tool is missing or because the
input PDF does not exist, its trace contains no filesystem-mutating step:
no directory creation and no external process. -/
theorem C9_no_fs_write_on_early_failure (env : Env) (a : Args)
    (h : env.which "pdftoppm" = false ∨
      env.fileExists (env.resolve (parse_args a).pdf) = false) :
    (main env a).1.filter isFsWrite = [] := by
  rcases h with h | h
  · rw [main_eq_noTool env a h]
    simp [isFsWrite, List.filter]
  · cases htool : env.which "pdftoppm" with
    | false =>
      rw [main_eq_noTool env a htool]
      simp [isFsWrite, List.filter]
    | true =>
      rw [main_eq_noPdf env a htool h]
      simp [isFsWrite, List.filter]

/-- C9 witness: concrete environment with no tool on the path. -/
theorem C9_no_fs_write_on_early_failure_witness :
    (envNoTool.which "pdftoppm" = false ∨
      envNoTool.fileExists (envNoTool.resolve (parse_args argsDefault).pdf) = false) ∧
    (main envNoTool argsDefault).1.filter isFsWrite = [] :=
  ⟨Or.inl rfl,
    C9_no_fs_write_on_early_failure envNoTool argsDefault (Or.inl rfl)⟩

/-- C10: on each of the three failure paths (tool missing, input PDF
missing, non-zero exit from the external tool) the driver's exit status is
exactly 1, as Python's `sys.exit(msg)` with a string prints the message and
exits with status 1. -/
theorem C10_failure_exit_status_is_one (env : Env) (a : Args)
    (h : env.which "pdftoppm" = false ∨
      env.fileExists (env.resolve (parse_args a).pdf) = false ∨
      env.procExit (commandOf env a) ≠ 0) :
    (main env a).2 = 1 := by
  cases htool : env.which "pdftoppm" with
  | false => rw [main_eq_noTool env a htool]
  | true =>
    cases hpdf : env.fileExists (env.resolve (parse_args a).pdf) with
    | false => rw [main_eq_noPdf env a htool hpdf]
    | true =>
      rcases h with h | h | h
      · rw [htool] at h
        cases h
      · rw [hpdf] at h
        cases h
      · rw [main_eq_procFail env a htool hpdf h]

/-- C10 witness: concrete environment in which the tool exits 2. -/
theorem C10_failure_exit_status_is_one_witness :
    (envProcFail.which "pdftoppm" = false ∨
      envProcFail.fileExists (envProcFail.resolve (parse_args argsDefault).pdf) = false ∨
      envProcFail.procExit (commandOf envProcFail argsDefault) ≠ 0) ∧
    (main envProcFail argsDefault).2 = 1 :=
  ⟨Or.inr (Or.inr (by decide)),
    C10_failure_exit_status_is_one envProcFail argsDefault
      (Or.inr (Or.inr (by decide)))⟩

end ConvertPdfSlides
